import Mathlib

/-
Shallow embedding of the benchmark driver `api_benchmark.py` from the
FastAPI / Django REST Framework / Flask comparison repository.

The driver issues one benchmark pass per endpoint: N concurrent creates
(POST), then one GET / PUT / DELETE per collected identifier, and reports
total_requests, success and failure counts, and requests per second.

Modelling choices:
  - A JSON value decoded by `r.json()` is a `JVal`; a decoded JSON object is
    an association list `List (String × JVal)` in document (= Python dict
    insertion) order.  Python's `None` is `JVal.jnull` (JSON `null` decodes
    to `None`, and `post_item` returns `None` on failure).
  - The network is an `Oracle`: a function from request index to the
    observed outcome of the POST, and functions from item identifier to the
    observed outcome of the GET / PUT / DELETE.  An outcome is either a
    transport exception or an HTTP response (status, and body for POST).
  - `asyncio.gather(..., return_exceptions=True)` plus the per-request
    `try/except` blocks mean each per-request coroutine is a total function
    of its own outcome; a phase is the list of those values in order.
  - Wall-clock duration is an input to the metric computation (`rps`), as
    real time is outside the embedding.
-/

namespace ApiBenchmark

/-- A JSON value as decoded by `r.json()` in Python.  `jnull` doubles as
Python `None`.  `jnum` covers non-integral JSON numbers (Python floats)
such as the payload price 99.99. -/
inductive JVal where
  | jnull
  | jbool (b : Bool)
  | jint (n : Int)
  | jnum (q : Rat)
  | jstr (s : String)
deriving DecidableEq, Repr

/-- Python truthiness (`if id:`) of a decoded JSON value. -/
def truthy : JVal → Bool
  | .jnull => false
  | .jbool b => b
  | .jint n => n != 0
  | .jnum q => q != 0
  | .jstr s => s != ""

/-- Python `dict.get(k)` on a decoded JSON object: the value at the first
matching key, `None` (absent) otherwise. -/
def dictGet (d : List (String × JVal)) (k : String) : Option JVal :=
  (d.find? (fun kv => kv.1 == k)).map (fun kv => kv.2)

/-- One entry of a Python dict literal / `**` merge: assigning to an
existing key overwrites its value in place, a new key is appended. -/
def dictInsert (d : List (String × JVal)) (k : String) (v : JVal) :
    List (String × JVal) :=
  if d.any (fun kv => kv.1 == k) then
    d.map (fun kv => if kv.1 == k then (k, v) else kv)
  else d ++ [(k, v)]

/-- The fixed `item_payload` sent by every create (and merged into every
update) request (api_benchmark.py lines 16-21). -/
def item_payload : List (String × JVal) :=
  [("name", .jstr "Test Item"),
   ("description", .jstr "A performance benchmark item"),
   ("price", .jnum (9999 / 100 : Rat)),
   ("in_stock", .jbool true)]

/-- The PUT body built by `put_item` (line 97):
`put_payload = ("name": "Updated", **item_payload)` — the literal entry
`"name": "Updated"` is written first and the `**item_payload` merge then
overwrites every key it shares with the literal. -/
def put_payload : List (String × JVal) :=
  item_payload.foldl (fun d kv => dictInsert d kv.1 kv.2)
    [("name", .jstr "Updated")]

/-- Python `isinstance(value, int) and value > 0` on a decoded JSON value.
Python `bool` is a subclass of `int` (`isinstance(True, int)` holds and
`True > 0`), so JSON `true` satisfies the test. -/
def isPosInt : JVal → Bool
  | .jint n => n > 0
  | .jbool b => b
  | _ => false

/-- Python `key.lower()`: lower-case every character (ASCII suffices for
the keys the driver meets). -/
def strLower (s : String) : String :=
  String.mk (s.data.map Char.toLower)

/-- The identifier-extraction loop of `post_item` (lines 58-65):
`response_data.get("id")`; when that is `None`, the first field whose key
lowercases to "id" or whose value is a positive integer; `None` when the
loop finds nothing. -/
def extract_id (d : List (String × JVal)) : JVal :=
  match dictGet d "id" with
  | some .jnull =>
    match d.find? (fun kv => strLower kv.1 == "id" || isPosInt kv.2) with
    | some kv => kv.2
    | none => .jnull
  | some v => v
  | none =>
    match d.find? (fun kv => strLower kv.1 == "id" || isPosInt kv.2) with
    | some kv => kv.2
    | none => .jnull

/-- Observed outcome of one POST request: a transport exception (anything
the `except` clause catches) or an HTTP response with status and decoded
JSON-object body. -/
inductive PostOutcome where
  | exn
  | resp (status : Nat) (body : List (String × JVal))
deriving DecidableEq, Repr

/-- Observed outcome of one GET / PUT / DELETE request: a transport
exception or an HTTP response status. -/
inductive ROutcome where
  | exn
  | status (s : Nat)
deriving DecidableEq, Repr

/-- `post_item` (lines 52-71): on HTTP 200/201 extract an identifier from
the body; on any other status, or any exception, return `None`. -/
def post_item : PostOutcome → JVal
  | .exn => .jnull
  | .resp s body => if s = 200 ∨ s = 201 then extract_id body else .jnull

/-- `get_item` (lines 73-88): `True` iff the GET returned HTTP 200;
`False` on any other status or exception. -/
def get_item : ROutcome → Bool
  | .exn => false
  | .status s => s == 200

/-- `put_item` (lines 90-106): `True` iff the PUT returned HTTP 200;
`False` on any other status or exception. -/
def put_item : ROutcome → Bool
  | .exn => false
  | .status s => s == 200

/-- `delete_item` (lines 108-123): `True` iff the DELETE returned HTTP
200 or 204; `False` on any other status or exception. -/
def delete_item : ROutcome → Bool
  | .exn => false
  | .status s => s == 200 || s == 204

/-- Substring test at the head: the needle is an initial segment of the
haystack. -/
def headMatch : List Char → List Char → Bool
  | [], _ => true
  | _ :: _, [] => false
  | a :: as, b :: bs => a == b && headMatch as bs

/-- Substring test on char lists (Python `needle in hay`). -/
def hasSub (needle : List Char) : List Char → Bool
  | [] => headMatch needle []
  | b :: bs => headMatch needle (b :: bs) || hasSub needle bs

/-- Python `needle in hay` on strings. -/
def strIn (needle hay : String) : Bool :=
  hasSub needle.toList hay.toList

/-- The trailing-slash test of `get_item` / `put_item` / `delete_item`
(lines 76, 93, 111): `'drf' in url or '8001' in url`. -/
def needs_slash (url : String) : Bool :=
  strIn "drf" url || strIn "8001" url

/-- Item-URL construction shared by `get_item`, `put_item` and
`delete_item`: the f-string appends the identifier to the base URL, plus a
trailing slash when the hardcoded substring test fires. -/
def item_url (url : String) (item_id : String) : String :=
  if needs_slash url then url ++ item_id ++ "/" else url ++ item_id

/-- The static `ENDPOINTS` configuration (lines 7-11). -/
def ENDPOINTS : List (String × String) :=
  [("fastapi", "http://localhost:8000/items/"),
   ("flask", "http://localhost:5000/items/"),
   ("drf", "http://localhost:8001/items/")]

/-- An endpoint as the spec's data model describes it: a base URL together
with a configurable per-endpoint trailing-slash-quirk property.  This is
the spec-side definition used to compare against the code's hardcoded
substring test. -/
structure Endpoint where
  base_url : String
  slash_quirk : Bool
deriving DecidableEq, Repr

/-- Item-URL construction as the spec words it: for an endpoint flagged
with the trailing-slash quirk the requests target `base ++ id ++ "/"`, for
every other endpoint `base ++ id`, the flag being a per-endpoint
configuration property. -/
def spec_item_url (e : Endpoint) (item_id : String) : String :=
  if e.slash_quirk then e.base_url ++ item_id ++ "/"
  else e.base_url ++ item_id

/-- `rps = success / duration if duration > 0 else 0` (line 44 of
`print_metrics`).  The float arithmetic is modelled over the rationals. -/
def print_metrics_rps (success : Nat) (duration : Rat) : Rat :=
  if duration > 0 then (success : Rat) / duration else 0

/-- The network as seen by one benchmark pass: outcome of the i-th POST,
and outcome of the GET / PUT / DELETE for a given item identifier. -/
structure Oracle where
  post : Nat → PostOutcome
  get : JVal → ROutcome
  put : JVal → ROutcome
  del : JVal → ROutcome

/-- `post_results` (line 142): the value returned by `post_item` for each
of the N create requests, in dispatch order. -/
def post_results (N : Nat) (o : Oracle) : List JVal :=
  (List.range N).map (fun i => post_item (o.post i))

/-- `item_ids` (line 143): the truthy create results, in order
(`[id for id in post_results if id and not isinstance(id, Exception)]`;
`post_item` catches its exceptions, so the `isinstance` guard never
fires). -/
def item_ids (N : Nat) (o : Oracle) : List JVal :=
  (post_results N o).filter truthy

/-- `get_results` (lines 151-152): one GET per collected identifier. -/
def get_results (N : Nat) (o : Oracle) : List Bool :=
  (item_ids N o).map (fun v => get_item (o.get v))

/-- `put_results` (lines 159-160): one PUT per collected identifier. -/
def put_results (N : Nat) (o : Oracle) : List Bool :=
  (item_ids N o).map (fun v => put_item (o.put v))

/-- `delete_results` (lines 167-168): one DELETE per collected
identifier. -/
def delete_results (N : Nat) (o : Oracle) : List Bool :=
  (item_ids N o).map (fun v => delete_item (o.del v))

/-- The success total of lines 173-178: the count of truthy create
results plus, per later phase, the sum of the `True` outcomes (summing
booleans counts them). -/
def success_count (N : Nat) (o : Oracle) : Nat :=
  ((post_results N o).filter truthy).length
    + ((get_results N o).filter (fun b => b)).length
    + ((put_results N o).filter (fun b => b)).length
    + ((delete_results N o).filter (fun b => b)).length

/-- The metrics of one benchmark pass as assembled in lines 170-182:
`total_requests = NUM_REQUESTS * 4`, the success total, and
`failures = total_requests - success`. -/
structure BenchResult where
  total_requests : Nat
  success : Nat
  failures : Nat
  item_ids : List JVal
deriving DecidableEq, Repr

/-- `benchmark_crud` (lines 125-182) restricted to its observable
counters: runs the four phases against the oracle and reports the
counters of `print_metrics`. -/
def benchmark_crud (N : Nat) (o : Oracle) : BenchResult :=
  { total_requests := N * 4
    success := success_count N o
    failures := N * 4 - success_count N o
    item_ids := item_ids N o }

/-- Replace the outcome of the j-th create request, leaving every other
request and the other phases untouched. -/
def updPost (o : Oracle) (j : Nat) (p : PostOutcome) : Oracle :=
  { o with post := fun i => if i = j then p else o.post i }

/-- A create outcome every part of the driver accepts: HTTP 201 with an
"id" field. -/
def okPost : PostOutcome := .resp 201 [("id", .jint 7)]

/-- A failed create outcome: HTTP 500 with an empty body. -/
def failPost : PostOutcome := .resp 500 []

/-- An oracle on which every request of every phase succeeds. -/
def allOkOracle : Oracle :=
  { post := fun _ => okPost
    get := fun _ => .status 200
    put := fun _ => .status 200
    del := fun _ => .status 204 }

/-- An oracle on which every create fails with HTTP 500. -/
def allFailOracle : Oracle :=
  { allOkOracle with post := fun _ => failPost }

/-- An oracle on which create number 2 fails with HTTP 500 and everything
else succeeds. -/
def oneFailOracle : Oracle :=
  { allOkOracle with post := fun i => if i = 2 then failPost else okPost }

end ApiBenchmark

namespace ApiBenchmark

lemma length_post_results (N : Nat) (o : Oracle) :
    (post_results N o).length = N := by
  simp [post_results]

lemma post_results_as_map_filter (N : Nat) (o : Oracle) :
    (post_results N o).filter truthy =
      ((List.range N).filter
        (fun i => truthy (post_item (o.post i)))).map
        (fun i => post_item (o.post i)) := by
  simpa [post_results] using
    List.filter_map (p := truthy) (fun i => post_item (o.post i)) (List.range N)

lemma success_count_le (N : Nat) (o : Oracle) :
    success_count N o ≤ N * 4 := by
  have hA : ((post_results N o).filter truthy).length ≤ N := by
    have h1 := List.length_filter_le truthy (post_results N o)
    simpa [length_post_results] using h1
  have hids : (item_ids N o).length ≤ N := hA
  have hB : ((get_results N o).filter (fun b => b)).length ≤ N := by
    have h1 := List.length_filter_le (fun b => b) (get_results N o)
    have h2 : (get_results N o).length = (item_ids N o).length := by
      simp [get_results]
    omega
  have hC : ((put_results N o).filter (fun b => b)).length ≤ N := by
    have h1 := List.length_filter_le (fun b => b) (put_results N o)
    have h2 : (put_results N o).length = (item_ids N o).length := by
      simp [put_results]
    omega
  have hD : ((delete_results N o).filter (fun b => b)).length ≤ N := by
    have h1 := List.length_filter_le (fun b => b) (delete_results N o)
    have h2 : (delete_results N o).length = (item_ids N o).length := by
      simp [delete_results]
    omega
  unfold success_count
  omega

/-- C7: for every configured request count N and every behaviour of the
network, the total_requests value reported for a benchmark pass equals
4 × N exactly, regardless of how many creates succeeded. -/
theorem c7_total_requests (N : Nat) (o : Oracle) :
    (benchmark_crud N o).total_requests = 4 * N := by
  simp [benchmark_crud, Nat.mul_comm]

/-- C9: for every benchmark pass, the reported success count plus the
reported failure count equals the reported total_requests. -/
theorem c9_success_plus_failures (N : Nat) (o : Oracle) :
    (benchmark_crud N o).success + (benchmark_crud N o).failures =
      (benchmark_crud N o).total_requests := by
  have h := success_count_le N o
  simp only [benchmark_crud]
  omega

/-- C8: the reported requests_per_second equals success divided by
duration whenever duration is positive, and is 0 when duration is 0 (the
guard `if duration > 0` means the division is never taken with a zero
denominator). -/
theorem c8_rps (s : Nat) (d : Rat) :
    (0 < d → print_metrics_rps s d = (s : Rat) / d) ∧
      (d = 0 → print_metrics_rps s d = 0) := by
  constructor
  · intro h
    simp [print_metrics_rps, h]
  · intro h
    subst h
    simp [print_metrics_rps]

theorem c8_rps_witness :
    print_metrics_rps 6 3 = (6 : Rat) / 3 ∧ print_metrics_rps 6 0 = 0 :=
  ⟨(c8_rps 6 3).1 (by norm_num), (c8_rps 6 0).2 rfl⟩

/-- C2 (code bug evaluation): the PUT body built by `put_item` is
`("name": "Updated", **item_payload)`, and because the `**item_payload`
merge comes second its `"name": "Test Item"` entry overwrites the
"Updated" marker: the body's name field is "Test Item", not the
"Updated" the update phase is documented to send. -/
theorem c2_put_body_name_bug :
    dictGet put_payload "name" = some (JVal.jstr "Test Item") ∧
      dictGet put_payload "name" ≠ some (JVal.jstr "Updated") := by
  decide

/-- C1 (counterexample): for the create response
`("count": 3, "other": 7)` the extracted identifier is 3 — the first
field whose value is a positive integer — not the 7 the claim states. -/
theorem c1_extract_id_counterexample :
    post_item (.resp 200 [("count", .jint 3), ("other", .jint 7)]) =
        JVal.jint 3 ∧
      post_item (.resp 200 [("count", .jint 3), ("other", .jint 7)]) ≠
        JVal.jint 7 := by
  decide

/-- C1 (amended): identifier extraction prefers the field literally named
"id" (exact case) when it is present and non-null; otherwise it takes the
first field whose key lowercases to "id" or whose value is a positive
integer.  In particular the response ("id": 7, "name": "x") yields 7,
("ID": 7) yields 7, and ("count": 3, "other": 7) yields 3 (the first
positive-integer field), not 7. -/
theorem c1_extract_id_amended :
    (∀ d v, dictGet d "id" = some v → v ≠ JVal.jnull → extract_id d = v) ∧
      post_item (.resp 200 [("id", .jint 7), ("name", .jstr "x")]) =
        JVal.jint 7 ∧
      post_item (.resp 201 [("ID", .jint 7)]) = JVal.jint 7 ∧
      post_item (.resp 200 [("count", .jint 3), ("other", .jint 7)]) =
        JVal.jint 3 := by
  refine ⟨?_, by decide, by decide, by decide⟩
  intro d v h hne
  unfold extract_id
  rw [h]
  cases v with
  | jnull => exact absurd rfl hne
  | jbool b => rfl
  | jint n => rfl
  | jnum q => rfl
  | jstr s => rfl

theorem c1_extract_id_witness :
    extract_id [("id", JVal.jint 9)] = JVal.jint 9 :=
  c1_extract_id_amended.1 [("id", JVal.jint 9)] (JVal.jint 9)
    (by decide) (by decide)

/-- C3 (counterexample): the trailing-slash decision is a hardcoded
substring match on the URL, not a per-endpoint configuration property: an
endpoint that is not flagged with the quirk but whose base URL mentions
port 8001 is still given the trailing slash by the code, while the
spec-side per-endpoint-flag construction gives it none. -/
theorem c3_trailing_slash_counterexample :
    item_url "http://localhost:8001/items/" "7" =
        "http://localhost:8001/items/7/" ∧
      spec_item_url ⟨"http://localhost:8001/items/", false⟩ "7" =
        "http://localhost:8001/items/7" ∧
      item_url "http://localhost:8001/items/" "7" ≠
        spec_item_url ⟨"http://localhost:8001/items/", false⟩ "7" := by
  refine ⟨by decide, rfl, by decide⟩

/-- C3 (amended): GET/PUT/DELETE target `base ++ id ++ "/"` exactly when
the base URL contains "drf" or "8001" as a substring — a hardcoded
string/port match — and `base ++ id` otherwise.  Among the three
configured endpoints only the DRF one matches, so on the actual
configuration the code coincides with the spec-side behaviour of flagging
exactly the DRF endpoint. -/
theorem c3_trailing_slash_amended :
    (∀ url item_id, needs_slash url = true →
        item_url url item_id = url ++ item_id ++ "/") ∧
      (∀ url item_id, needs_slash url = false →
        item_url url item_id = url ++ item_id) ∧
      needs_slash "http://localhost:8001/items/" = true ∧
      needs_slash "http://localhost:8000/items/" = false ∧
      needs_slash "http://localhost:5000/items/" = false ∧
      (∀ item_id, item_url "http://localhost:8001/items/" item_id =
        spec_item_url ⟨"http://localhost:8001/items/", true⟩ item_id) ∧
      (∀ item_id, item_url "http://localhost:8000/items/" item_id =
        spec_item_url ⟨"http://localhost:8000/items/", false⟩ item_id) ∧
      (∀ item_id, item_url "http://localhost:5000/items/" item_id =
        spec_item_url ⟨"http://localhost:5000/items/", false⟩ item_id) := by
  have h1 : needs_slash "http://localhost:8001/items/" = true := by decide
  have h2 : needs_slash "http://localhost:8000/items/" = false := by decide
  have h3 : needs_slash "http://localhost:5000/items/" = false := by decide
  refine ⟨?_, ?_, h1, h2, h3, ?_, ?_, ?_⟩
  · intro url s h
    simp [item_url, h]
  · intro url s h
    simp [item_url, h]
  · intro s
    simp [item_url, spec_item_url, h1]
  · intro s
    simp [item_url, spec_item_url, h2]
  · intro s
    simp [item_url, spec_item_url, h3]

theorem c3_trailing_slash_witness :
    item_url "http://localhost:8001/items/" "9" =
      "http://localhost:8001/items/" ++ "9" ++ "/" :=
  c3_trailing_slash_amended.1 "http://localhost:8001/items/" "9" (by decide)

end ApiBenchmark

namespace ApiBenchmark

/-- An oracle whose single create returns HTTP 202 — a 2xx status the
driver nevertheless rejects (it accepts only 200 and 201). -/
def o202 : Oracle :=
  { allOkOracle with post := fun _ => .resp 202 [("id", .jint 7)] }

/-- An oracle whose single create returns HTTP 200 with an empty body, so
no identifier is extractable. -/
def oEmptyBody : Oracle :=
  { allOkOracle with post := fun _ => .resp 200 [] }

/-- C4 (counterexample): a run in which every issued request returns a
success status in the claim's sense need not reach
success_count = total_requests.  With N = 1: a create answered 202 (a
2xx status) is rejected by the driver's 200/201 test, and a create
answered 200 with an empty body yields no identifier; in both runs no
read/update/delete request is issued at all, so every issued request had
a success status, yet success_count = 0 and failure_count = 4. -/
theorem c4_all_success_counterexample :
    (benchmark_crud 1 o202).total_requests = 4 ∧
      (benchmark_crud 1 o202).success = 0 ∧
      (benchmark_crud 1 o202).failures = 4 ∧
      (benchmark_crud 1 oEmptyBody).success = 0 ∧
      (benchmark_crud 1 oEmptyBody).failures = 4 := by
  decide

/-- C4 (amended): for every run in which every create returns HTTP 200 or
201 with a body whose extracted identifier is truthy, every read and
update returns HTTP 200, and every delete returns HTTP 200 or 204, the
reported success count equals total_requests and the reported failure
count is 0. -/
theorem c4_all_success_amended (N : Nat) (o : Oracle)
    (hpost : ∀ i, i < N → truthy (post_item (o.post i)) = true)
    (hget : ∀ v ∈ item_ids N o, get_item (o.get v) = true)
    (hput : ∀ v ∈ item_ids N o, put_item (o.put v) = true)
    (hdel : ∀ v ∈ item_ids N o, delete_item (o.del v) = true) :
    (benchmark_crud N o).success = (benchmark_crud N o).total_requests ∧
      (benchmark_crud N o).failures = 0 := by
  have hfilter : (post_results N o).filter truthy = post_results N o := by
    apply List.filter_eq_self.mpr
    intro a ha
    simp only [post_results, List.mem_map, List.mem_range] at ha
    obtain ⟨i, hi, rfl⟩ := ha
    exact hpost i hi
  have hA : ((post_results N o).filter truthy).length = N := by
    rw [hfilter, length_post_results]
  have hidslen : (item_ids N o).length = N := hA
  have hB : ((get_results N o).filter (fun b => b)).length = N := by
    have hg : (get_results N o).filter (fun b => b) = get_results N o := by
      apply List.filter_eq_self.mpr
      intro b hb
      simp only [get_results, List.mem_map] at hb
      obtain ⟨v, hv, rfl⟩ := hb
      exact hget v hv
    rw [hg]
    simpa [get_results] using hidslen
  have hC : ((put_results N o).filter (fun b => b)).length = N := by
    have hg : (put_results N o).filter (fun b => b) = put_results N o := by
      apply List.filter_eq_self.mpr
      intro b hb
      simp only [put_results, List.mem_map] at hb
      obtain ⟨v, hv, rfl⟩ := hb
      exact hput v hv
    rw [hg]
    simpa [put_results] using hidslen
  have hD : ((delete_results N o).filter (fun b => b)).length = N := by
    have hg : (delete_results N o).filter (fun b => b) =
        delete_results N o := by
      apply List.filter_eq_self.mpr
      intro b hb
      simp only [delete_results, List.mem_map] at hb
      obtain ⟨v, hv, rfl⟩ := hb
      exact hdel v hv
    rw [hg]
    simpa [delete_results] using hidslen
  have hs : success_count N o = N * 4 := by
    unfold success_count
    omega
  simp only [benchmark_crud, hs]
  exact ⟨trivial, by omega⟩

theorem c4_all_success_witness :
    (benchmark_crud 2 allOkOracle).success =
        (benchmark_crud 2 allOkOracle).total_requests ∧
      (benchmark_crud 2 allOkOracle).failures = 0 :=
  c4_all_success_amended 2 allOkOracle
    (fun _ _ => rfl) (fun _ _ => rfl) (fun _ _ => rfl) (fun _ _ => rfl)

/-- C5: if every create fails to yield a truthy identifier, the read,
update and delete phases each issue zero requests, total_requests still
equals 4 × N, and all 4 × N requests are counted as failures. -/
theorem c5_zero_ids (N : Nat) (o : Oracle)
    (hfail : ∀ i, i < N → truthy (post_item (o.post i)) = false) :
    item_ids N o = [] ∧
      (get_results N o).length = 0 ∧
      (put_results N o).length = 0 ∧
      (delete_results N o).length = 0 ∧
      (benchmark_crud N o).total_requests = 4 * N ∧
      (benchmark_crud N o).success = 0 ∧
      (benchmark_crud N o).failures = 4 * N := by
  have hnil : (post_results N o).filter truthy = [] := by
    apply List.filter_eq_nil_iff.mpr
    intro a ha
    simp only [post_results, List.mem_map, List.mem_range] at ha
    obtain ⟨i, hi, rfl⟩ := ha
    simp [hfail i hi]
  have hids : item_ids N o = [] := hnil
  have hs : success_count N o = 0 := by
    unfold success_count
    rw [hnil]
    simp [get_results, put_results, delete_results, hids]
  refine ⟨hids, ?_, ?_, ?_, ?_, ?_, ?_⟩
  · simp [get_results, hids]
  · simp [put_results, hids]
  · simp [delete_results, hids]
  · simp [benchmark_crud, Nat.mul_comm]
  · simp [benchmark_crud, hs]
  · simp [benchmark_crud, hs, Nat.mul_comm]

theorem c5_zero_ids_witness :
    item_ids 2 allFailOracle = [] ∧
      (get_results 2 allFailOracle).length = 0 ∧
      (put_results 2 allFailOracle).length = 0 ∧
      (delete_results 2 allFailOracle).length = 0 ∧
      (benchmark_crud 2 allFailOracle).total_requests = 4 * 2 ∧
      (benchmark_crud 2 allFailOracle).success = 0 ∧
      (benchmark_crud 2 allFailOracle).failures = 4 * 2 :=
  c5_zero_ids 2 allFailOracle (fun _ _ => rfl)

end ApiBenchmark

namespace ApiBenchmark

lemma filter_map_range_congr (p : JVal → Bool) (N : Nat) (f g : Nat → JVal)
    (h : ∀ i, i < N → p (f i) = p (g i) ∧ (p (f i) = true → f i = g i)) :
    ((List.range N).map f).filter p = ((List.range N).map g).filter p := by
  induction N with
  | zero => rfl
  | succ n ih =>
    simp only [List.range_succ, List.map_append, List.filter_append]
    rw [ih (fun i hi => h i (Nat.lt_succ_of_lt hi))]
    congr 1
    have hn := h n (Nat.lt_succ_self n)
    cases hfn : p (f n) with
    | false =>
      have hgn : p (g n) = false := by rw [← hn.1, hfn]
      simp [List.filter_cons, hfn, hgn]
    | true =>
      have hgn : p (g n) = true := by rw [← hn.1, hfn]
      have hfg : f n = g n := hn.2 hfn
      simp [List.filter_cons, hfn, hgn, hfg]

/-- C6: one failing request is counted against that request only.  The
outcome of every create is recorded at its own position regardless of the
others; when request j of the create phase fails, the phase's success
count is exactly the count of the sibling requests that individually
succeeded (none is removed); and each later phase still issues exactly
one request per collected identifier.  Per-request exception catching is
reflected in `post_item`, `get_item`, `put_item` and `delete_item` being
total on outcomes that include transport exceptions. -/
theorem c6_request_isolation (N : Nat) (o : Oracle) (j : Nat) (_hj : j < N)
    (hfail : truthy (post_item (o.post j)) = false) :
    (∀ i, i < N → (post_results N o)[i]? = some (post_item (o.post i))) ∧
      ((post_results N o).filter truthy).length =
        ((List.range N).filter
          (fun i => (i != j) && truthy (post_item (o.post i)))).length ∧
      (get_results N o).length = (item_ids N o).length ∧
      (put_results N o).length = (item_ids N o).length ∧
      (delete_results N o).length = (item_ids N o).length := by
  refine ⟨?_, ?_, ?_, ?_, ?_⟩
  · intro i hi
    simp [post_results, List.getElem?_map, List.getElem?_range hi]
  · rw [post_results_as_map_filter, List.length_map]
    apply congrArg List.length
    apply List.filter_congr
    intro i _
    by_cases h : i = j
    · subst h
      simp [hfail]
    · simp [bne_iff_ne, h]
  · simp [get_results]
  · simp [put_results]
  · simp [delete_results]

theorem c6_request_isolation_witness :
    (∀ i, i < 5 →
      (post_results 5 oneFailOracle)[i]? =
        some (post_item (oneFailOracle.post i))) ∧
      ((post_results 5 oneFailOracle).filter truthy).length =
        ((List.range 5).filter
          (fun i =>
            (i != 2) && truthy (post_item (oneFailOracle.post i)))).length ∧
      (get_results 5 oneFailOracle).length =
        (item_ids 5 oneFailOracle).length ∧
      (put_results 5 oneFailOracle).length =
        (item_ids 5 oneFailOracle).length ∧
      (delete_results 5 oneFailOracle).length =
        (item_ids 5 oneFailOracle).length :=
  c6_request_isolation 5 oneFailOracle 2 (by decide) (by decide)

/-- An oracle whose single create returns HTTP 200 with the identifier
field equal to 0 — a falsy extracted identifier on a successful HTTP
request. -/
def oZeroId : Oracle :=
  { allOkOracle with post := fun _ => .resp 200 [("id", .jint 0)] }

/-- C10: a create whose HTTP request succeeds (status 200/201) but whose
extracted identifier is falsy (0, or None when the id field is null) is
indistinguishable from an outright failed create: the whole benchmark
pass — collected identifiers, success count, failure count — is the same
as if that request had returned HTTP 500, so it is counted as a failure
and contributes no identifier to the later phases. -/
theorem c10_falsy_id (N : Nat) (o : Oracle) (j : Nat) (_hj : j < N)
    (_hok : ∃ s b, o.post j = PostOutcome.resp s b ∧ (s = 200 ∨ s = 201))
    (hfalsy : truthy (post_item (o.post j)) = false) :
    benchmark_crud N o = benchmark_crud N (updPost o j failPost) := by
  have hfilter : (post_results N o).filter truthy =
      (post_results N (updPost o j failPost)).filter truthy := by
    unfold post_results
    apply filter_map_range_congr
    intro i _
    by_cases h : i = j
    · rw [h]
      have h2 : (updPost o j failPost).post j = failPost := by
        simp [updPost]
      constructor
      · rw [h2, hfalsy]
        decide
      · intro htrue
        rw [hfalsy] at htrue
        cases htrue
    · have h2 : (updPost o j failPost).post i = o.post i := by
        simp [updPost, h]
      rw [h2]
      exact ⟨rfl, fun _ => rfl⟩
  have hids : item_ids N o = item_ids N (updPost o j failPost) := hfilter
  have hg : get_results N o = get_results N (updPost o j failPost) := by
    unfold get_results
    rw [hids]
    rfl
  have hp : put_results N o = put_results N (updPost o j failPost) := by
    unfold put_results
    rw [hids]
    rfl
  have hd : delete_results N o =
      delete_results N (updPost o j failPost) := by
    unfold delete_results
    rw [hids]
    rfl
  have hsucc : success_count N o =
      success_count N (updPost o j failPost) := by
    unfold success_count
    rw [hfilter, hg, hp, hd]
  unfold benchmark_crud
  rw [hsucc, hids]

theorem c10_falsy_id_witness :
    benchmark_crud 1 oZeroId = benchmark_crud 1 (updPost oZeroId 0 failPost) :=
  c10_falsy_id 1 oZeroId 0 (by decide)
    ⟨200, [("id", .jint 0)], rfl, Or.inl rfl⟩ (by decide)

end ApiBenchmark
